import Mathlib

/-!
Verification development for the DipLensV2 market-dip monitoring engine.

Shallow embedding of the core components, translated from the Python
sources in `backend/app`:
  * `dip_engine.py`      — 52-week-high tracking and dip classification
  * `indicators.py`      — RSI (batch and incremental)
  * `alerts/engine.py`   — per-rule alert state machine
  * `alerts/noise_control.py` — quiet hours
  * `state_machine.py`   — per-sector state machine
  * `candidate_ranker.py` — candidate ranking

Machine floats are modelled by `ℚ` and instants (`datetime`) by `ℚ`
seconds; Python `None` becomes `Option`.
-/

namespace DipLens

/-! ## Dip engine (`dip_engine.py`) -/

/-- `DipClass` enumeration from `dip_engine.py`. -/
inductive DipClass
  | NONE
  | MICRO
  | MINOR
  | MODERATE
  | SIGNIFICANT
  | MAJOR
  | EXTREME
  deriving DecidableEq, Repr

/-- `DipEngine.classify_dip`: dip percentage from the 52-week high and
its severity class. -/
def classify_dip (current_price high_52w : ℚ) : ℚ × DipClass :=
  if high_52w = 0 then (0, DipClass.NONE)
  else
    let dip_pct := (high_52w - current_price) / high_52w * 100
    if dip_pct < 0 then (0, DipClass.NONE)
    else if dip_pct < 3 then (dip_pct, DipClass.NONE)
    else if dip_pct < 5 then (dip_pct, DipClass.MICRO)
    else if dip_pct < 8 then (dip_pct, DipClass.MINOR)
    else if dip_pct < 12 then (dip_pct, DipClass.MODERATE)
    else if dip_pct < 15 then (dip_pct, DipClass.SIGNIFICANT)
    else if dip_pct < 25 then (dip_pct, DipClass.MAJOR)
    else (dip_pct, DipClass.EXTREME)

/-- Python slice `l[-k:]` (for `k = 0` the whole list). -/
def sliceLast (l : List ℚ) (k : ℕ) : List ℚ :=
  if k = 0 then l else l.drop (l.length - k)

/-- `np.max` over a nonempty list (`0` on the empty list, unreachable in
the guarded caller). -/
def listMax : List ℚ → ℚ
  | [] => 0
  | h :: t => t.foldl max h

/-- `DipEngine.calculate_52w_high`: maximum of the last
`lookback_days` highs, `0.0` on empty input. -/
def calculate_52w_high (highs : List ℚ) (lookback_days : ℕ) : ℚ :=
  if highs = [] then 0
  else
    let period_highs := if highs.length > lookback_days then sliceLast highs lookback_days else highs
    listMax period_highs

/-- `DipEngine.find_high_date`: most recent index whose high is within
`0.01` of the 52-week high. -/
def find_high_date (highs : List ℚ) (dates : List String) (high_52w : ℚ) :
    Option (String × ℕ) :=
  if highs = [] ∨ dates = [] ∨ highs.length ≠ dates.length then none
  else
    let high_indices := (List.range highs.length).filter
      (fun i => |highs.getD i 0 - high_52w| < 1 / 100)
    match high_indices.getLast? with
    | none => none
    | some high_idx => some (dates.getD high_idx "", highs.length - high_idx - 1)

/-- Round-half-to-even to an integer (Python `round` semantics on exact
values). -/
def roundHalfEven (x : ℚ) : ℤ :=
  let f := ⌊x⌋
  let r := x - f
  if r < 1 / 2 then f
  else if 1 / 2 < r then f + 1
  else if Even f then f else f + 1

/-- Python `round(x, 2)`. -/
def round2 (x : ℚ) : ℚ := (roundHalfEven (x * 100) : ℚ) / 100

/-- Result record of `DipEngine.analyze_dip`. -/
structure DipAnalysis where
  symbol : String
  current_price : ℚ
  high_52w : ℚ
  high_52w_date : Option String
  dip_pct : ℚ
  dip_class : DipClass
  days_from_high : Option ℕ
  deriving DecidableEq, Repr

/-- `DipEngine.analyze_dip`: complete dip analysis; empty price history
short-circuits to a zeroed analysis. -/
def analyze_dip (symbol : String) (closes highs : List ℚ)
    (dates : Option (List String)) (lookback_days : ℕ) : DipAnalysis :=
  if closes = [] ∨ highs = [] then
    { symbol := symbol
      current_price := 0
      high_52w := 0
      high_52w_date := none
      dip_pct := 0
      dip_class := DipClass.NONE
      days_from_high := none }
  else
    let current_price := (closes.getLast?).getD 0
    let high_52w := calculate_52w_high highs lookback_days
    let dc := classify_dip current_price high_52w
    let hd : Option String × Option ℕ :=
      match dates with
      | none => (none, none)
      | some ds =>
        match find_high_date highs ds high_52w with
        | none => (none, none)
        | some (d, n) => (some d, some n)
    { symbol := symbol
      current_price := current_price
      high_52w := high_52w
      high_52w_date := hd.1
      dip_pct := round2 dc.1
      dip_class := dc.2
      days_from_high := hd.2 }

/-! ## Indicator kernel (`indicators.py`) -/

/-- `np.diff`: first differences. -/
def diffs : List ℚ → List ℚ
  | a :: b :: rest => (b - a) :: diffs (b :: rest)
  | _ => []

/-- Last value of `Series.ewm(..., adjust=False).mean()` with smoothing
factor `alpha`: seeded with the first element, then
`y := alpha * x + (1 - alpha) * y` for each later element (`0` on the
empty list, unreachable in the guarded caller). -/
def ewm_last (alpha : ℚ) : List ℚ → ℚ
  | [] => 0
  | x :: rest => rest.foldl (fun acc v => alpha * v + (1 - alpha) * acc) x

/-- `np.where(deltas > 0, deltas, 0)` over the first differences. -/
def gainsOf (closes : List ℚ) : List ℚ :=
  (diffs closes).map (fun d => if d > 0 then d else 0)

/-- `np.where(deltas < 0, -deltas, 0)` over the first differences. -/
def lossesOf (closes : List ℚ) : List ℚ :=
  (diffs closes).map (fun d => if d < 0 then -d else 0)

/-- `IndicatorEngine.calculate_rsi`: the code smooths gains and losses
with `ewm(span=period, adjust=False)`, whose pandas smoothing factor is
`alpha = 2 / (span + 1)`. -/
def calculate_rsi (closes : List ℚ) (period : ℕ) : Option ℚ :=
  if closes.length < period + 1 then none
  else
    let alpha : ℚ := 2 / (period + 1)
    let avg_gain := ewm_last alpha (gainsOf closes)
    let avg_loss := ewm_last alpha (lossesOf closes)
    if avg_loss = 0 then some 100
    else
      let rs := avg_gain / avg_loss
      some (100 - 100 / (1 + rs))

/-- The batch RSI as the specification words it: the identical
computation except that the exponentially-weighted average uses
smoothing factor `alpha = 1 / period`. -/
def rsi_spec_alpha (closes : List ℚ) (period : ℕ) : Option ℚ :=
  if closes.length < period + 1 then none
  else
    let alpha : ℚ := 1 / period
    let avg_gain := ewm_last alpha (gainsOf closes)
    let avg_loss := ewm_last alpha (lossesOf closes)
    if avg_loss = 0 then some 100
    else
      let rs := avg_gain / avg_loss
      some (100 - 100 / (1 + rs))

/-- RSI-relevant state of `IncrementalIndicators`. -/
structure IncrementalIndicators where
  closes : List ℚ
  rsi_avg_gain : Option ℚ
  rsi_avg_loss : Option ℚ
  deriving DecidableEq, Repr

/-- `IncrementalIndicators.update_incremental_rsi`: returned RSI and
updated EMA state.  With an uninitialized gain EMA the code returns the
batch RSI of the *stored* closes, ignoring `new_close` and leaving the
EMA state untouched.  (A gain EMA without a loss EMA would raise a
`TypeError` in Python; that unreachable corner yields `none`.) -/
def update_incremental_rsi (s : IncrementalIndicators) (new_close : ℚ)
    (period : ℕ) : Option ℚ × IncrementalIndicators :=
  if s.closes.length < 2 then (none, s)
  else
    let delta := new_close - (s.closes.getLast?).getD 0
    let gain := max delta 0
    let loss := max (-delta) 0
    let alpha : ℚ := 1 / period
    match s.rsi_avg_gain, s.rsi_avg_loss with
    | none, _ => (calculate_rsi s.closes period, s)
    | some _, none => (none, s)
    | some g, some l =>
      let g' := alpha * gain + (1 - alpha) * g
      let l' := alpha * loss + (1 - alpha) * l
      let s' := { s with rsi_avg_gain := some g', rsi_avg_loss := some l' }
      if l' = 0 then (some 100, s')
      else (some (100 - 100 / (1 + g' / l')), s')

/-! ## Alert rule state machine
(`alerts/models.py`, `alerts/noise_control.py`, `alerts/engine.py`) -/

/-- `AlertCondition` enumeration. -/
inductive AlertCondition
  | DIP_GT
  | RSI_LT
  | MACD_BULLISH
  | VOLUME_SPIKE
  | PRE_SCORE_GT
  deriving DecidableEq, Repr

/-- `AlertStateEnum` enumeration. -/
inductive AlertStateEnum
  | IDLE
  | ARMED
  | TRIGGERED
  | COOLDOWN
  deriving DecidableEq, Repr

/-- `Priority` enumeration. -/
inductive Priority
  | HIGH
  | MEDIUM
  | LOW
  deriving DecidableEq, Repr

/-- `SuppressionReason` enumeration. -/
inductive SuppressionReason
  | BUDGET
  | QUIET_HOURS
  | COOLDOWN
  | AWAITING_CONFIRMATION
  | LOW_PRIORITY
  | BURST_ROLLUP
  | CORPORATE_ACTION
  | HALT
  deriving DecidableEq, Repr

/-- `AlertRule` record. -/
structure AlertRule where
  id : String
  user_id : String
  symbol : String
  condition : AlertCondition
  threshold : ℚ
  debounce_seconds : ℚ
  hysteresis_reset : ℚ
  confirm_window_seconds : ℚ
  enabled : Bool
  cooldown_seconds : ℚ
  priority : Priority
  deriving DecidableEq, Repr

/-- `AlertState` record. -/
structure AlertState where
  rule_id : String
  symbol : String
  state : AlertStateEnum
  last_transition_at : ℚ
  last_triggered_at : Option ℚ
  cooldown_until : Option ℚ
  last_value : Option ℚ
  first_signal_at : Option ℚ
  deriving DecidableEq, Repr

/-- Fresh state produced by `AlertStorage.get_state` for an unknown
rule: `AlertState(rule_id=..., symbol=...)` with all model defaults. -/
def alertInit (rule_id symbol : String) (now : ℚ) : AlertState :=
  { rule_id := rule_id
    symbol := symbol
    state := AlertStateEnum.IDLE
    last_transition_at := now
    last_triggered_at := none
    cooldown_until := none
    last_value := none
    first_signal_at := none }

/-- The `market_data` dictionary consumed by `_check_condition`
(`pre_score` may be present in the dictionary but is never read). -/
structure MarketData where
  dip_percent : Option ℚ
  rsi : Option ℚ
  macd_hist : Option ℚ
  volume : Option ℚ
  avg_volume : Option ℚ
  pre_score : Option ℚ
  deriving DecidableEq, Repr

/-- `AlertEngine._check_condition`: `(condition_met, current_value)`.
`val` and `met` start as `0.0` and `False`; conditions without a branch
(`PRE_SCORE_GT`) keep those initial values. -/
def check_condition (rule : AlertRule) (data : MarketData) : Bool × ℚ :=
  match rule.condition with
  | AlertCondition.DIP_GT =>
    let val := data.dip_percent.getD 0
    (decide (val ≥ rule.threshold), val)
  | AlertCondition.RSI_LT =>
    let val := data.rsi.getD 100
    (decide (val < rule.threshold), val)
  | AlertCondition.MACD_BULLISH =>
    let val := data.macd_hist.getD 0
    (decide (val > 0) && decide (val > rule.threshold), val)
  | AlertCondition.VOLUME_SPIKE =>
    let vol := data.volume.getD 0
    let avg_vol := data.avg_volume.getD 1
    let val := if avg_vol > 0 then vol / avg_vol else 0
    (decide (val ≥ rule.threshold), val)
  | AlertCondition.PRE_SCORE_GT => (false, 0)

/-- `AlertEngine._should_reset`: the hysteresis reset test. -/
def should_reset (rule : AlertRule) (current_value : ℚ) : Bool :=
  if rule.hysteresis_reset = 0 then
    match rule.condition with
    | AlertCondition.DIP_GT => decide (current_value < rule.threshold)
    | AlertCondition.RSI_LT => decide (current_value ≥ rule.threshold)
    | _ => true
  else
    match rule.condition with
    | AlertCondition.DIP_GT =>
      decide (current_value < rule.threshold - rule.hysteresis_reset)
    | AlertCondition.RSI_LT =>
      decide (current_value > rule.threshold + rule.hysteresis_reset)
    | _ => true

/-- `AlertEngine._transition`: sets the new state and stamps the
transition time — nothing else is cleared. -/
def transition (s : AlertState) (new_state : AlertStateEnum) (now : ℚ) : AlertState :=
  { s with state := new_state, last_transition_at := now }

/-- `NoiseControl.is_quiet_hours`, over clock times (e.g. minutes since
midnight): both comparisons against the window ends are inclusive. -/
def is_quiet_hours (now quiet_start quiet_end : ℚ) : Bool :=
  if quiet_start < quiet_end then decide (quiet_start ≤ now ∧ now ≤ quiet_end)
  else decide (now ≥ quiet_start ∨ now ≤ quiet_end)

/-- External inputs of `_trigger_alert`: the local wall-clock time and
quiet window read by `NoiseControl.is_quiet_hours`, and the outcome of
`NoiseControl.check_budget` (a suppression reason or `None`). -/
structure NoiseEnv where
  local_now : ℚ
  quiet_start : ℚ
  quiet_end : ℚ
  budget_check : Option SuppressionReason
  deriving DecidableEq, Repr

/-- `AlertEngine._trigger_alert`: resulting state, suppression-log
entries appended, and whether a notification was dispatched. -/
def trigger_alert (env : NoiseEnv) (rule : AlertRule) (s : AlertState) (value : ℚ)
    (now : ℚ) : AlertState × List SuppressionReason × Bool :=
  let quiet : Option SuppressionReason :=
    if is_quiet_hours env.local_now env.quiet_start env.quiet_end ∧
        rule.priority ≠ Priority.HIGH
    then some SuppressionReason.QUIET_HOURS else none
  let suppression_reason : Option SuppressionReason :=
    match quiet with
    | some r => some r
    | none => env.budget_check
  match suppression_reason with
  | some r =>
    ({ transition s AlertStateEnum.TRIGGERED now with last_triggered_at := some now },
     [r], false)
  | none =>
    ({ transition s AlertStateEnum.TRIGGERED now with last_triggered_at := some now },
     [], true)

/-- Cooldown-expiry test in step 1 of `evaluate_rule`
(`state.cooldown_until and now >= state.cooldown_until`). -/
def cooldownExpired (s : AlertState) (now : ℚ) : Bool :=
  match s.cooldown_until with
  | some cu => decide (now ≥ cu)
  | none => false

/-- Step 3 of `AlertEngine.evaluate_rule`: the IDLE/ARMED/TRIGGERED
elif chain, run after a possible cooldown-exit transition. -/
def evaluate_step2 (env : NoiseEnv) (rule : AlertRule) (s1 : AlertState) (now : ℚ)
    (is_met : Bool) (current_value : ℚ) : AlertState × ℕ :=
  match s1.state with
  | AlertStateEnum.IDLE =>
    if is_met then
      if rule.debounce_seconds > 0 then
        ({ transition s1 AlertStateEnum.ARMED now with first_signal_at := some now }, 1)
      else
        ((trigger_alert env rule s1 current_value now).1, 1)
    else (s1, 0)
  | AlertStateEnum.ARMED =>
    if is_met then
      match s1.first_signal_at with
      | some t =>
        if now - t ≥ rule.debounce_seconds then
          ((trigger_alert env rule s1 current_value now).1, 1)
        else (s1, 0)
      | none => (s1, 0)
    else (transition s1 AlertStateEnum.IDLE now, 1)
  | AlertStateEnum.TRIGGERED =>
    if should_reset rule current_value then
      (transition { s1 with cooldown_until := some (now + rule.cooldown_seconds) }
        AlertStateEnum.COOLDOWN now, 1)
    else (s1, 0)
  | AlertStateEnum.COOLDOWN => (s1, 0)

/-- `AlertEngine.evaluate_rule`: one evaluation tick.  Returns the new
persisted state and the number of `_transition` calls performed.  A
tick that is still in cooldown returns early, before `last_value` is
persisted. -/
def evaluate_rule (env : NoiseEnv) (rule : AlertRule) (s0 : AlertState) (now : ℚ)
    (data : MarketData) : AlertState × ℕ :=
  if s0.state = AlertStateEnum.COOLDOWN ∧ ¬ cooldownExpired s0 now then (s0, 0)
  else
    let step1 : AlertState × ℕ :=
      if s0.state = AlertStateEnum.COOLDOWN then
        (transition s0 AlertStateEnum.IDLE now, 1)
      else (s0, 0)
    let mv := check_condition rule data
    let step2 := evaluate_step2 env rule step1.1 now mv.1 mv.2
    ({ step2.1 with last_value := some mv.2 }, step1.2 + step2.2)

/-- A sequence of evaluation ticks, accumulating the transition count. -/
def run_alert (rule : AlertRule) :
    AlertState → List (NoiseEnv × ℚ × MarketData) → AlertState × ℕ
  | s, [] => (s, 0)
  | s, (env, now, data) :: rest =>
    let r1 := evaluate_rule env rule s now data
    let r2 := run_alert rule r1.1 rest
    (r2.1, r1.2 + r2.2)

/-! ## Sector state machine (`state_machine.py`) -/

/-- `SectorState` enumeration. -/
inductive SectorState
  | NORMAL
  | WATCH
  | ALERT
  | COOLDOWN
  deriving DecidableEq, Repr

/-- `StateThresholds` dataclass. -/
structure StateThresholds where
  watch_dip_min : ℚ
  watch_rsi40_breadth_min : ℚ
  alert_dip_min : ℚ
  alert_rsi40_breadth_min : ℚ
  alert_down_breadth_min : ℚ
  watch_exit_dip : ℚ
  watch_exit_rsi40 : ℚ
  alert_exit_dip : ℚ
  alert_exit_rsi40 : ℚ
  cooldown_duration_seconds : ℚ
  dip_worsen_threshold : ℚ
  breadth_worsen_threshold : ℚ
  deriving DecidableEq, Repr

/-- The default thresholds of `StateThresholds` (fractional fields are
written with `mkRat`; see `defaultThresholds_fractions`). -/
def defaultThresholds : StateThresholds :=
  { watch_dip_min := 5, watch_rsi40_breadth_min := mkRat 35 100
    alert_dip_min := 8, alert_rsi40_breadth_min := mkRat 45 100
    alert_down_breadth_min := mkRat 55 100
    watch_exit_dip := 4, watch_exit_rsi40 := mkRat 33 100
    alert_exit_dip := 7, alert_exit_rsi40 := mkRat 43 100
    cooldown_duration_seconds := 1800
    dip_worsen_threshold := 2, breadth_worsen_threshold := mkRat 10 100 }

/-- The sector metrics dictionary (`metrics.get(key, 0)` reads with
default `0`). -/
structure SectorMetrics where
  dip_pct : Option ℚ
  rsi40_breadth : Option ℚ
  lowerband_breadth : Option ℚ
  deriving DecidableEq, Repr

/-- `SectorStateMachine._meets_watch_criteria`. -/
def meets_watch_criteria (th : StateThresholds) (m : SectorMetrics) : Bool :=
  decide (m.dip_pct.getD 0 ≥ th.watch_dip_min) &&
  decide (m.rsi40_breadth.getD 0 ≥ th.watch_rsi40_breadth_min)

/-- `SectorStateMachine._meets_alert_criteria`. -/
def meets_alert_criteria (th : StateThresholds) (m : SectorMetrics) : Bool :=
  decide (m.dip_pct.getD 0 ≥ th.alert_dip_min) &&
  (decide (m.rsi40_breadth.getD 0 ≥ th.alert_rsi40_breadth_min) ||
   decide (m.lowerband_breadth.getD 0 ≥ th.alert_down_breadth_min))

/-- `SectorStateMachine._should_exit_watch`. -/
def should_exit_watch (th : StateThresholds) (m : SectorMetrics) : Bool :=
  decide (m.dip_pct.getD 0 < th.watch_exit_dip) ||
  decide (m.rsi40_breadth.getD 0 < th.watch_exit_rsi40)

/-- `SectorStateMachine._should_exit_alert`. -/
def should_exit_alert (th : StateThresholds) (m : SectorMetrics) : Bool :=
  decide (m.dip_pct.getD 0 < th.alert_exit_dip) ||
  decide (m.rsi40_breadth.getD 0 < th.alert_exit_rsi40)

/-- `SectorStateMachine._check_worsen_conditions`. -/
def check_worsen_conditions (th : StateThresholds) (current : SectorMetrics)
    (last : Option SectorMetrics) : Bool :=
  match last with
  | none => false
  | some lm =>
    decide (current.dip_pct.getD 0 - lm.dip_pct.getD 0 ≥ th.dip_worsen_threshold) ||
    decide (current.rsi40_breadth.getD 0 - lm.rsi40_breadth.getD 0 ≥
      th.breadth_worsen_threshold)

/-- `SectorEvent` record. -/
structure SectorEvent where
  event_id : String
  sector_id : String
  ts : ℚ
  previous_state : SectorState
  new_state : SectorState
  metrics_snapshot : SectorMetrics
  trigger_reason : String
  deriving DecidableEq, Repr

/-- `SectorStateRecord` record. -/
structure SectorStateRecord where
  sector_id : String
  current_state : SectorState
  last_transition : ℚ
  cooldown_until : Option ℚ
  last_alert_metrics : Option SectorMetrics
  state_history : List SectorEvent
  deriving DecidableEq, Repr

/-- Fresh record created by `update_state` for an unknown sector. -/
def sectorInit (sector_id : String) (now : ℚ) : SectorStateRecord :=
  { sector_id := sector_id
    current_state := SectorState.NORMAL
    last_transition := now
    cooldown_until := none
    last_alert_metrics := none
    state_history := [] }

/-- `record.cooldown_until and now >= record.cooldown_until`. -/
def sectorCooldownExpired (cooldown_until : Option ℚ) (now : ℚ) : Bool :=
  match cooldown_until with
  | some cu => decide (now ≥ cu)
  | none => false

/-- `history[-100:]` truncation. -/
def capHistory (l : List SectorEvent) : List SectorEvent :=
  if l.length > 100 then l.drop (l.length - 100) else l

/-- `SectorStateMachine.update_state`: one snapshot update for an
existing record.  Returns the updated record and the emitted event (iff
the state changed). -/
def update_state (th : StateThresholds) (record : SectorStateRecord) (now : ℚ)
    (metrics : SectorMetrics) : SectorStateRecord × Option SectorEvent :=
  let current_state := record.current_state
  let step : SectorState × String × SectorStateRecord :=
    match record.current_state with
    | SectorState.NORMAL =>
      if meets_alert_criteria th metrics then
        (SectorState.ALERT, "Alert criteria met", record)
      else if meets_watch_criteria th metrics then
        (SectorState.WATCH, "Watch criteria met", record)
      else (current_state, "", record)
    | SectorState.WATCH =>
      if meets_alert_criteria th metrics then
        (SectorState.ALERT, "Escalated from WATCH to ALERT", record)
      else if should_exit_watch th metrics then
        (SectorState.NORMAL, "Watch criteria no longer met", record)
      else (current_state, "", record)
    | SectorState.ALERT =>
      if should_exit_alert th metrics then
        (SectorState.COOLDOWN, "Alert ended, entering cooldown",
         { record with
            cooldown_until := some (now + th.cooldown_duration_seconds)
            last_alert_metrics := some metrics })
      else (current_state, "", record)
    | SectorState.COOLDOWN =>
      if sectorCooldownExpired record.cooldown_until now then
        (SectorState.NORMAL, "Cooldown expired", record)
      else if check_worsen_conditions th metrics record.last_alert_metrics then
        (SectorState.ALERT, "Conditions worsened during cooldown", record)
      else (current_state, "", record)
  let new_state := step.1
  let record1 := step.2.2
  if new_state ≠ current_state then
    let event : SectorEvent :=
      { event_id := record.sector_id ++ "_" ++ toString (⌊now⌋ : ℤ)
        sector_id := record.sector_id
        ts := now
        previous_state := current_state
        new_state := new_state
        metrics_snapshot := metrics
        trigger_reason := step.2.1 }
    ({ record1 with
        current_state := new_state
        last_transition := now
        state_history := capHistory (record1.state_history ++ [event]) },
     some event)
  else (record1, none)

/-- A sequence of snapshot updates, counting emitted events (state
transitions). -/
def run_sector (th : StateThresholds) :
    SectorStateRecord → List (ℚ × SectorMetrics) → SectorStateRecord × ℕ
  | r, [] => (r, 0)
  | r, (now, m) :: rest =>
    let u := update_state th r now m
    let rec2 := run_sector th u.1 rest
    (rec2.1, (if u.2.isSome then 1 else 0) + rec2.2)

/-! ## Candidate ranker (`candidate_ranker.py`) -/

/-- The `PreScore` fields consumed by the ranker. -/
structure PreScore where
  symbol : String
  pre_score : ℤ
  reasons : List String
  flags : List String
  deriving DecidableEq, Repr

/-- Bollinger-band dictionary (the ranker reads only `lower`). -/
structure Bollinger where
  upper : ℚ
  middle : ℚ
  lower : ℚ
  deriving DecidableEq, Repr

/-- A candidate dictionary as consumed by `rank_candidates`. -/
structure Candidate where
  pre_score : Option PreScore
  current_price : ℚ
  sma200 : Option ℚ
  bollinger : Option Bollinger
  adtv : ℚ
  deriving DecidableEq, Repr

/-- `CandidateRanker.calculate_ranking_score`.  The Python truthiness
test `if sma200 and current_price > 0` requires a present, nonzero
value. -/
def calculate_ranking_score (pre_score : ℤ) (current_price : ℚ) (sma200 : Option ℚ)
    (lower_band : Option ℚ) (adtv : ℚ) : ℚ :=
  let base : ℚ := pre_score * 100
  let with_sma :=
    match sma200 with
    | some s =>
      if s ≠ 0 ∧ current_price > 0 then
        let dist_pct := |current_price - s| / s
        let dist_factor := max 0 (10 / 100 - dist_pct) * 100
        if current_price ≥ s then base + dist_factor else base
      else base
    | none => base
  let with_lower :=
    match lower_band with
    | some l =>
      if l ≠ 0 ∧ current_price > 0 then
        with_sma + max 0 (10 / 100 - |current_price - l| / l) * 50
      else with_sma
    | none => with_sma
  with_lower + adtv / 1000000000000

/-- One entry of the ranker's intermediate `scored_candidates` list. -/
structure ScoredCand where
  cand : Candidate
  pre : PreScore
  sort_score : ℚ
  dist_sma : ℚ
  dist_lower : ℚ
  deriving DecidableEq, Repr

/-- The scoring loop of `rank_candidates`: candidates with a missing
`PreScore` or `pre_score == 0` are skipped; the rest are scored and get
their display metrics. -/
def scoredList (cands : List Candidate) : List ScoredCand :=
  cands.filterMap (fun c =>
    match c.pre_score with
    | none => none
    | some p =>
      if p.pre_score = 0 then none
      else
        let lower_band := c.bollinger.map Bollinger.lower
        let sort_score :=
          calculate_ranking_score p.pre_score c.current_price c.sma200 lower_band c.adtv
        let dist_sma :=
          match c.sma200 with
          | some s =>
            if s ≠ 0 ∧ c.current_price > 0 then (c.current_price - s) / s * 100 else 0
          | none => 0
        let dist_lower :=
          match lower_band with
          | some l =>
            if l ≠ 0 ∧ c.current_price > 0 then (c.current_price - l) / l * 100 else 0
          | none => 0
        some { cand := c, pre := p, sort_score := sort_score
               dist_sma := dist_sma, dist_lower := dist_lower })

/-- Descending-score comparison used by the (stable) sort. -/
def rank_ge (a b : ScoredCand) : Prop := b.sort_score ≤ a.sort_score

instance : DecidableRel rank_ge :=
  fun a b => inferInstanceAs (Decidable (b.sort_score ≤ a.sort_score))

instance : IsTotal ScoredCand rank_ge :=
  ⟨fun a b => le_total b.sort_score a.sort_score⟩

instance : IsTrans ScoredCand rank_ge :=
  ⟨fun _ _ _ hab hbc => le_trans hbc hab⟩

/-- `scored_candidates.sort(key=..., reverse=True)`: a stable sort,
descending on `sort_score`. -/
def sortedScored (cands : List Candidate) : List ScoredCand :=
  List.insertionSort rank_ge (scoredList cands)

/-- `scored_candidates[:limit]`. -/
def top_candidates (cands : List Candidate) (limit : ℕ) : List ScoredCand :=
  (sortedScored cands).take limit

/-- `RankedCandidate` record. -/
structure RankedCandidate where
  symbol : String
  rank : ℕ
  pre_score : ℤ
  reasons : List String
  flags : List String
  distance_to_sma200_pct : ℚ
  distance_to_lower_band_pct : ℚ
  adtv : ℚ
  deriving DecidableEq, Repr

/-- `CandidateRanker.rank_candidates`: scored, sorted descending,
truncated to `limit`, re-indexed with ranks starting at 1. -/
def rank_candidates (cands : List Candidate) (limit : ℕ) : List RankedCandidate :=
  (top_candidates cands limit).enum.map (fun ic =>
    { symbol := ic.2.pre.symbol
      rank := ic.1 + 1
      pre_score := ic.2.pre.pre_score
      reasons := ic.2.pre.reasons
      flags := ic.2.pre.flags
      distance_to_sma200_pct := ic.2.dist_sma
      distance_to_lower_band_pct := ic.2.dist_lower
      adtv := ic.2.cand.adtv })

/-- The classification bands exactly as the specification words them:
right-open intervals `[0,3)`, `[3,5)`, `[5,8)`, `[8,12)`, `[12,15)`,
`[15,25)`, `[25,∞)`. -/
def dipBandSpec (d : ℚ) : DipClass :=
  if 0 ≤ d ∧ d < 3 then DipClass.NONE
  else if 3 ≤ d ∧ d < 5 then DipClass.MICRO
  else if 5 ≤ d ∧ d < 8 then DipClass.MINOR
  else if 8 ≤ d ∧ d < 12 then DipClass.MODERATE
  else if 12 ≤ d ∧ d < 15 then DipClass.SIGNIFICANT
  else if 15 ≤ d ∧ d < 25 then DipClass.MAJOR
  else DipClass.EXTREME

end DipLens

/-! ## Theorems -/

namespace DipLens

/-- **C8.** Dip classification uses the right-open bands `[0,3)` NONE,
`[3,5)` MICRO, `[5,8)` MINOR, `[8,12)` MODERATE, `[12,15)` SIGNIFICANT,
`[15,25)` MAJOR, `[25,∞)` EXTREME of the dip percentage; in particular a
dip of exactly `8.0` classifies as MODERATE and a dip of `7.999` as
MINOR. -/
theorem classify_dip_right_open_bands :
    (∀ current_price high_52w : ℚ, high_52w ≠ 0 →
      0 ≤ (high_52w - current_price) / high_52w * 100 →
      classify_dip current_price high_52w =
        ((high_52w - current_price) / high_52w * 100,
         dipBandSpec ((high_52w - current_price) / high_52w * 100))) ∧
    classify_dip 92 100 = (8, DipClass.MODERATE) ∧
    classify_dip (92001 / 1000) 100 = (7999 / 1000, DipClass.MINOR) := by
  refine ⟨?_, by norm_num [classify_dip], by norm_num [classify_dip]⟩
  intro p h hne hd
  unfold classify_dip dipBandSpec
  rw [if_neg hne]
  revert hd
  generalize (h - p) / h * 100 = d
  intro hd
  split_ifs <;> simp_all
  all_goals try (rename_i hc; obtain ⟨hL, hR⟩ := hc)
  all_goals split_ifs <;> first | rfl | linarith

/-- Witness for C8 at a concrete input. -/
theorem classify_dip_right_open_bands_witness :
    classify_dip 96 100 = (4, dipBandSpec 4) := by
  have h := classify_dip_right_open_bands.1 96 100 (by norm_num) (by norm_num)
  norm_num at h ⊢
  exact h

/-- **C10.** `classify_dip` is total and never divides by zero: with a
`0` high it returns `(0, NONE)`; whenever the raw dip is negative (price
above the 52-week high) it returns `(0, NONE)`; and `analyze_dip` on an
empty price history returns dip `0.0` with class NONE instead of
failing. -/
theorem classify_dip_total_safe :
    (∀ current_price : ℚ, classify_dip current_price 0 = (0, DipClass.NONE)) ∧
    (∀ current_price high_52w : ℚ, high_52w ≠ 0 →
      (high_52w - current_price) / high_52w * 100 < 0 →
      classify_dip current_price high_52w = (0, DipClass.NONE)) ∧
    (∀ symbol lookback_days,
      analyze_dip symbol [] [] none lookback_days =
        { symbol := symbol, current_price := 0, high_52w := 0,
          high_52w_date := none, dip_pct := 0, dip_class := DipClass.NONE,
          days_from_high := none }) := by
  refine ⟨fun p => by simp [classify_dip], ?_, fun s n => by simp [analyze_dip]⟩
  intro p h hne hneg
  unfold classify_dip
  rw [if_neg hne, if_pos hneg]

/-- Witness for C10 at concrete inputs. -/
theorem classify_dip_total_safe_witness :
    classify_dip 50 0 = (0, DipClass.NONE) ∧
    classify_dip 120 100 = (0, DipClass.NONE) ∧
    (analyze_dip "X" [] [] none 365).dip_pct = 0 := by
  refine ⟨classify_dip_total_safe.1 50, ?_, ?_⟩
  · have h := classify_dip_total_safe.2.1 120 100 (by norm_num) (by norm_num)
    exact h
  · rw [classify_dip_total_safe.2.2 "X" 365]

/-- Auxiliary: the EWMA fold keeps a nonnegative accumulator when
`0 ≤ alpha ≤ 1` and every input is nonnegative. -/
theorem ewm_foldl_nonneg (alpha : ℚ) (h0 : 0 ≤ alpha) (h1 : alpha ≤ 1)
    (l : List ℚ) : ∀ acc : ℚ, 0 ≤ acc → (∀ x ∈ l, 0 ≤ x) →
      0 ≤ l.foldl (fun a v => alpha * v + (1 - alpha) * a) acc := by
  induction l with
  | nil => intro acc hacc _; simpa using hacc
  | cons v rest ih =>
    intro acc hacc hl
    simp only [List.foldl_cons]
    refine ih _ ?_ ?_
    · have hv : 0 ≤ v := hl v (by simp)
      have h2 : 0 ≤ alpha * v := mul_nonneg h0 hv
      have h3 : 0 ≤ (1 - alpha) * acc := mul_nonneg (by linarith) hacc
      linarith
    · intro x hx
      exact hl x (by simp [hx])

/-- Auxiliary: `ewm_last` of a nonnegative series is nonnegative. -/
theorem ewm_last_nonneg (alpha : ℚ) (h0 : 0 ≤ alpha) (h1 : alpha ≤ 1)
    (l : List ℚ) (hl : ∀ x ∈ l, 0 ≤ x) : 0 ≤ ewm_last alpha l := by
  cases l with
  | nil => simp [ewm_last]
  | cons x rest =>
    exact ewm_foldl_nonneg alpha h0 h1 rest x (hl x (by simp))
      (fun y hy => hl y (by simp [hy]))

/-- Auxiliary: gains are nonnegative. -/
theorem gainsOf_nonneg (closes : List ℚ) : ∀ x ∈ gainsOf closes, 0 ≤ x := by
  intro x hx
  obtain ⟨d, _, rfl⟩ := List.mem_map.1 hx
  split <;> [linarith [‹d > 0›]; exact le_refl 0]

/-- Auxiliary: losses are nonnegative. -/
theorem lossesOf_nonneg (closes : List ℚ) : ∀ x ∈ lossesOf closes, 0 ≤ x := by
  intro x hx
  obtain ⟨d, _, rfl⟩ := List.mem_map.1 hx
  split <;> [linarith [‹d < 0›]; exact le_refl 0]

/-- Closing prices that separate the two candidate smoothing factors. -/
def rsiProbeCloses : List ℚ := [1, 2, 1, 1, 1, 1, 1, 1, 1, 1, 1, 1, 1, 1, 1]

/-- Auxiliary: value of the batch RSI on the probe input. -/
theorem rsi_probe_value : calculate_rsi rsiProbeCloses 14 = some (260 / 3) := by
  norm_num [calculate_rsi, rsiProbeCloses, gainsOf, lossesOf, diffs, ewm_last]

/-- Auxiliary: value of the spec-worded (`α = 1/period`) RSI on the
probe input. -/
theorem rsi_probe_spec_value :
    rsi_spec_alpha rsiProbeCloses 14 = some (650 / 7) := by
  norm_num [rsi_spec_alpha, rsiProbeCloses, gainsOf, lossesOf, diffs, ewm_last]

/-- **C6 (counterexample).** The batch RSI does not compute the
exponentially-weighted average with smoothing factor `α = 1/period`: at
a concrete 15-sample input with `period = 14` the code
(`ewm(span=14, adjust=False)`, i.e. `α = 2/15`) produces `260/3` while
the claimed `α = 1/14` smoothing produces `650/7`. -/
theorem calculate_rsi_smoothing_counterexample :
    calculate_rsi rsiProbeCloses 14 ≠ rsi_spec_alpha rsiProbeCloses 14 := by
  rw [rsi_probe_value, rsi_probe_spec_value]
  norm_num

/-- **C6 (amended).** The batch RSI smooths gains and losses of the
first differences with the pandas span factor `α = 2/(period+1)` seeded
at the first sample; it returns a value in `[0, 100]`, returns exactly
`100.0` whenever the smoothed average loss is `0`, and returns no result
when fewer than `period+1` samples are given.  The incremental variant
uses `α = 1/period` and therefore need not agree with the batch
computation; with an uninitialized EMA state it falls back to the batch
RSI of its stored closes, ignoring the new sample. -/
theorem calculate_rsi_amended :
    (∀ (closes : List ℚ) (period : ℕ), closes.length < period + 1 →
      calculate_rsi closes period = none) ∧
    (∀ (closes : List ℚ) (period : ℕ) (r : ℚ), 1 ≤ period →
      calculate_rsi closes period = some r → 0 ≤ r ∧ r ≤ 100) ∧
    (∀ (closes : List ℚ) (period : ℕ), ¬ closes.length < period + 1 →
      ewm_last (2 / (period + 1)) (lossesOf closes) = 0 →
      calculate_rsi closes period = some 100) ∧
    (∀ (s : IncrementalIndicators) (new_close : ℚ) (period : ℕ),
      ¬ s.closes.length < 2 → s.rsi_avg_gain = none →
      (update_incremental_rsi s new_close period).1 = calculate_rsi s.closes period) := by
  refine ⟨?_, ?_, ?_, ?_⟩
  · intro closes period hlen
    simp [calculate_rsi, hlen]
  · intro closes period r hp hr
    have hα0 : (0 : ℚ) ≤ 2 / (period + 1) := by positivity
    have hα1 : (2 : ℚ) / (period + 1) ≤ 1 := by
      rw [div_le_one (by positivity)]
      have h : (1 : ℚ) ≤ period := by exact_mod_cast hp
      linarith
    simp only [calculate_rsi] at hr
    split_ifs at hr with hlen hloss
    · injection hr with h100
      subst h100
      norm_num
    · injection hr with h100
      subst h100
      have hg : 0 ≤ ewm_last (2 / (period + 1)) (gainsOf closes) :=
        ewm_last_nonneg _ hα0 hα1 _ (gainsOf_nonneg closes)
      have hl : 0 ≤ ewm_last (2 / (period + 1)) (lossesOf closes) :=
        ewm_last_nonneg _ hα0 hα1 _ (lossesOf_nonneg closes)
      have hlpos : 0 < ewm_last (2 / (period + 1)) (lossesOf closes) :=
        lt_of_le_of_ne hl (Ne.symm hloss)
      have hrs : 0 ≤ ewm_last (2 / (period + 1)) (gainsOf closes) /
          ewm_last (2 / (period + 1)) (lossesOf closes) := div_nonneg hg hl
      have hden : (0 : ℚ) < 1 + ewm_last (2 / (period + 1)) (gainsOf closes) /
          ewm_last (2 / (period + 1)) (lossesOf closes) := by linarith
      have hq1 : 100 / (1 + ewm_last (2 / (period + 1)) (gainsOf closes) /
          ewm_last (2 / (period + 1)) (lossesOf closes)) ≤ 100 := by
        apply div_le_self (by norm_num)
        linarith
      have hq0 : 0 < 100 / (1 + ewm_last (2 / (period + 1)) (gainsOf closes) /
          ewm_last (2 / (period + 1)) (lossesOf closes)) := by positivity
      constructor <;> linarith
  · intro closes period hlen hloss
    simp [calculate_rsi, hlen, hloss]
  · intro s new_close period hlen hg
    simp [update_incremental_rsi, hlen, hg]

/-- Witness for C6 at a concrete input. -/
theorem calculate_rsi_amended_witness :
    0 ≤ (260 : ℚ) / 3 ∧ (260 : ℚ) / 3 ≤ 100 :=
  calculate_rsi_amended.2.1 rsiProbeCloses 14 (260 / 3) (by norm_num)
    rsi_probe_value

/-! ### Alert machine theorems -/

/-- Auxiliary: whether suppressed or not, `_trigger_alert` leaves the
same state: TRIGGERED with `last_triggered_at` updated. -/
theorem trigger_alert_fst (env : NoiseEnv) (rule : AlertRule) (s : AlertState)
    (value now : ℚ) :
    (trigger_alert env rule s value now).1 =
      { transition s AlertStateEnum.TRIGGERED now with last_triggered_at := some now } := by
  simp only [trigger_alert]
  split <;> rfl

/-- A rule probing the unevaluated PRE_SCORE_GT condition. -/
def preScoreProbeRule : AlertRule :=
  { id := "r1", user_id := "u", symbol := "S"
    condition := AlertCondition.PRE_SCORE_GT, threshold := 5
    debounce_seconds := 0, hysteresis_reset := 0, confirm_window_seconds := 0
    enabled := true, cooldown_seconds := 3600, priority := Priority.MEDIUM }

/-- Market data carrying a pre-score of `10`. -/
def preScoreProbeData : MarketData :=
  { dip_percent := none, rsi := none, macd_hist := none, volume := none
    avg_volume := none, pre_score := some 10 }

/-- **C5 (counterexample).** For a PRE_SCORE_GT rule with threshold `5`
and market data with pre-score `10`, the claim demands
`(condition_met, current_value) = (true, 10)`, but `_check_condition`
has no PRE_SCORE_GT branch and returns the initial `(false, 0)`. -/
theorem check_condition_pre_score_counterexample :
    preScoreProbeData.pre_score = some 10 ∧
    preScoreProbeRule.threshold = 5 ∧
    check_condition preScoreProbeRule preScoreProbeData = (false, 0) :=
  ⟨rfl, rfl, rfl⟩

/-- **C5 (amended).** For every rule with condition PRE_SCORE_GT and
every market data input, `_check_condition` returns
`condition_met = false` and `current_value = 0`: the condition is
enumerated but never evaluated. -/
theorem check_condition_pre_score_amended (rule : AlertRule) (data : MarketData)
    (h : rule.condition = AlertCondition.PRE_SCORE_GT) :
    check_condition rule data = (false, 0) := by
  unfold check_condition
  rw [h]

/-- Witness for C5 at a concrete input. -/
theorem check_condition_pre_score_amended_witness :
    check_condition preScoreProbeRule preScoreProbeData = (false, 0) :=
  check_condition_pre_score_amended preScoreProbeRule preScoreProbeData rfl

/-- A MACD_BULLISH rule with hysteresis 0. -/
def macdProbeRule : AlertRule :=
  { id := "r2", user_id := "u", symbol := "S"
    condition := AlertCondition.MACD_BULLISH, threshold := 1
    debounce_seconds := 0, hysteresis_reset := 0, confirm_window_seconds := 0
    enabled := true, cooldown_seconds := 3600, priority := Priority.MEDIUM }

/-- Market data with a MACD histogram of `2`. -/
def macdProbeData : MarketData :=
  { dip_percent := none, rsi := none, macd_hist := some 2, volume := none
    avg_volume := none, pre_score := none }

/-- **C2 (counterexample).** For a MACD_BULLISH rule with threshold `1`
and hysteresis `0`, on market data with histogram `2` the trigger
condition evaluates *true*, yet `_should_reset` still reports a reset —
the claimed "reset exactly when the trigger condition evaluates false"
fails. -/
theorem should_reset_counterexample :
    (check_condition macdProbeRule macdProbeData).1 = true ∧
    should_reset macdProbeRule (check_condition macdProbeRule macdProbeData).2 = true :=
  ⟨rfl, rfl⟩

/-- **C2 (amended).** The reset predicate: for DIP_GT with hysteresis
`h ≠ 0`, reset iff `value < threshold − h`; for RSI_LT with `h ≠ 0`,
reset iff `value > threshold + h`; with `h = 0`, DIP_GT and RSI_LT
reset exactly when the trigger condition evaluates false; every other
condition (MACD_BULLISH, VOLUME_SPIKE, PRE_SCORE_GT) resets
unconditionally, regardless of the current market data. -/
theorem should_reset_amended :
    (∀ (rule : AlertRule) (v : ℚ),
      rule.condition = AlertCondition.MACD_BULLISH ∨
      rule.condition = AlertCondition.VOLUME_SPIKE ∨
      rule.condition = AlertCondition.PRE_SCORE_GT →
      should_reset rule v = true) ∧
    (∀ (rule : AlertRule) (v : ℚ), rule.condition = AlertCondition.DIP_GT →
      rule.hysteresis_reset ≠ 0 →
      (should_reset rule v = true ↔ v < rule.threshold - rule.hysteresis_reset)) ∧
    (∀ (rule : AlertRule) (v : ℚ), rule.condition = AlertCondition.RSI_LT →
      rule.hysteresis_reset ≠ 0 →
      (should_reset rule v = true ↔ v > rule.threshold + rule.hysteresis_reset)) ∧
    (∀ (rule : AlertRule) (data : MarketData), rule.hysteresis_reset = 0 →
      rule.condition = AlertCondition.DIP_GT ∨ rule.condition = AlertCondition.RSI_LT →
      should_reset rule (check_condition rule data).2 =
        !(check_condition rule data).1) := by
  refine ⟨?_, ?_, ?_, ?_⟩
  · intro rule v h
    rcases h with h | h | h <;> simp [should_reset, h]
  · intro rule v h hh
    simp [should_reset, h, hh]
  · intro rule v h hh
    simp [should_reset, h, hh]
  · intro rule data hh h
    rcases h with h | h
    · rcases lt_or_le (data.dip_percent.getD 0) rule.threshold with hv | hv
      · simp [should_reset, check_condition, h, hh, hv, not_le.mpr hv, ge_iff_le]
      · simp [should_reset, check_condition, h, hh, hv, not_lt.mpr hv, ge_iff_le]
    · rcases lt_or_le (data.rsi.getD 100) rule.threshold with hv | hv
      · simp [should_reset, check_condition, h, hh, hv, not_le.mpr hv, ge_iff_le]
      · simp [should_reset, check_condition, h, hh, hv, not_lt.mpr hv, ge_iff_le]

/-- Witness for C2 at a concrete input. -/
theorem should_reset_amended_witness :
    should_reset macdProbeRule 2 = true :=
  should_reset_amended.1 macdProbeRule 2 (Or.inl rfl)

/-- A MEDIUM-priority rule used to probe quiet-hours suppression. -/
def quietProbeRule : AlertRule :=
  { id := "r3", user_id := "u", symbol := "S"
    condition := AlertCondition.DIP_GT, threshold := 5
    debounce_seconds := 0, hysteresis_reset := 0, confirm_window_seconds := 0
    enabled := true, cooldown_seconds := 3600, priority := Priority.MEDIUM }

/-- Quiet window 22:00 → 08:00 (in minutes since local midnight), with
the local clock at exactly 08:00 = QUIET_END. -/
def quietProbeEnv : NoiseEnv :=
  { local_now := 480, quiet_start := 1320, quiet_end := 480, budget_check := none }

/-- **C7 (counterexample).** With the quiet window 22:00→08:00 crossing
midnight, the instant exactly QUIET_END (08:00) is still treated as
quiet by `is_quiet_hours` and a MEDIUM-priority fire at that time is
suppressed — contradicting the claimed right-open window
`[QUIET_START, QUIET_END)` under which that instant is not
suppressed. -/
theorem quiet_hours_end_counterexample :
    is_quiet_hours 480 1320 480 = true ∧
    (trigger_alert quietProbeEnv quietProbeRule (alertInit "r3" "S" 0) 6 0).2.1 =
      [SuppressionReason.QUIET_HOURS] ∧
    (trigger_alert quietProbeEnv quietProbeRule (alertInit "r3" "S" 0) 6 0).2.2 = false := by
  refine ⟨by decide, ?_, ?_⟩ <;> rfl

/-- **C7 (amended).** For every fire attempt by a rule whose priority
is not HIGH while the local time lies in the *closed* quiet window
`[QUIET_START, QUIET_END]` (which may cross midnight): exactly one
QUIET_HOURS suppression is logged, the state transitions to TRIGGERED
with `last_triggered_at` updated, and no notification is dispatched.
Times strictly outside the window are not quiet, but — unlike the
claim — the instant exactly QUIET_END is inside the window. -/
theorem quiet_hours_amended :
    (∀ (env : NoiseEnv) (rule : AlertRule) (s : AlertState) (value now : ℚ),
      is_quiet_hours env.local_now env.quiet_start env.quiet_end = true →
      rule.priority ≠ Priority.HIGH →
      trigger_alert env rule s value now =
        ({ transition s AlertStateEnum.TRIGGERED now with last_triggered_at := some now },
         [SuppressionReason.QUIET_HOURS], false)) ∧
    (∀ s e : ℚ, is_quiet_hours e s e = true) ∧
    (∀ t s e : ℚ, s < e → t < s ∨ e < t → is_quiet_hours t s e = false) ∧
    (∀ t s e : ℚ, ¬ s < e → e < t → t < s → is_quiet_hours t s e = false) := by
  refine ⟨?_, ?_, ?_, ?_⟩
  · intro env rule s value now hq hp
    unfold trigger_alert
    rw [if_pos ⟨hq, hp⟩]
  · intro s e
    unfold is_quiet_hours
    split_ifs with h
    · exact decide_eq_true ⟨le_of_lt h, le_refl e⟩
    · exact decide_eq_true (Or.inr (le_refl e))
  · intro t s e hse ht
    unfold is_quiet_hours
    rw [if_pos hse, decide_eq_false_iff_not]
    rintro ⟨h1, h2⟩
    rcases ht with ht | ht <;> linarith
  · intro t s e hse h1 h2
    unfold is_quiet_hours
    rw [if_neg hse, decide_eq_false_iff_not, not_or, not_le, not_le]
    exact ⟨h2, h1⟩

/-- Witness for C7 at a concrete input. -/
theorem quiet_hours_amended_witness :
    trigger_alert quietProbeEnv quietProbeRule (alertInit "r3" "S" 0) 6 0 =
      ({ transition (alertInit "r3" "S" 0) AlertStateEnum.TRIGGERED 0 with
          last_triggered_at := some 0 },
       [SuppressionReason.QUIET_HOURS], false) :=
  quiet_hours_amended.1 quietProbeEnv quietProbeRule (alertInit "r3" "S" 0) 6 0
    (by decide) (by decide)

/-- The per-rule `AlertState` invariants that actually hold: the forward
implications.  (The converses fail: leaving COOLDOWN or ARMED never
clears `cooldown_until` / `first_signal_at`.) -/
def alertInv (s : AlertState) : Prop :=
  (s.state = AlertStateEnum.COOLDOWN → s.cooldown_until ≠ none) ∧
  (s.state = AlertStateEnum.ARMED → s.first_signal_at ≠ none)

/-- Auxiliary: updating `last_value` does not affect the invariant. -/
theorem alertInv_last_value (x : AlertState) (v : Option ℚ) :
    alertInv { x with last_value := v } ↔ alertInv x := by
  simp [alertInv]

/-- Auxiliary: the elif chain of `evaluate_rule` preserves `alertInv`. -/
theorem evaluate_step2_inv (env : NoiseEnv) (rule : AlertRule) (s1 : AlertState)
    (now : ℚ) (m : Bool) (v : ℚ) (h : alertInv s1) :
    alertInv (evaluate_step2 env rule s1 now m v).1 := by
  obtain ⟨hc, ha⟩ := h
  unfold evaluate_step2
  cases hs : s1.state <;> dsimp only
  case IDLE =>
    by_cases hm : m = true
    · rw [if_pos hm]
      split_ifs
      · exact ⟨by simp [transition], by simp [transition]⟩
      · rw [trigger_alert_fst]
        exact ⟨by simp [transition], by simp [transition]⟩
    · rw [if_neg hm]
      exact ⟨fun hh => absurd (hs ▸ hh) (by simp), fun hh => absurd (hs ▸ hh) (by simp)⟩
  case ARMED =>
    by_cases hm : m = true
    · rw [if_pos hm]
      cases hfs : s1.first_signal_at
      · dsimp only
        exact absurd hfs (ha hs)
      · dsimp only
        split_ifs
        · rw [trigger_alert_fst]
          exact ⟨by simp [transition], by simp [transition]⟩
        · exact ⟨fun hh => absurd (hs ▸ hh) (by simp), fun _ => by simp [hfs]⟩
    · rw [if_neg hm]
      exact ⟨by simp [transition], by simp [transition]⟩
  case TRIGGERED =>
    split_ifs
    · exact ⟨by simp [transition], by simp [transition]⟩
    · exact ⟨fun hh => absurd (hs ▸ hh) (by simp), fun hh => absurd (hs ▸ hh) (by simp)⟩
  case COOLDOWN =>
    exact ⟨fun _ => hc hs, fun hh => absurd (hs ▸ hh) (by simp)⟩

/-- Auxiliary: a single evaluation tick preserves `alertInv`. -/
theorem evaluate_rule_inv (env : NoiseEnv) (rule : AlertRule) (s : AlertState)
    (now : ℚ) (data : MarketData) (h : alertInv s) :
    alertInv (evaluate_rule env rule s now data).1 := by
  unfold evaluate_rule
  split_ifs with h1 h2
  · exact h
  · rw [alertInv_last_value]
    exact evaluate_step2_inv env rule _ now _ _
      ⟨by simp [transition], by simp [transition]⟩
  · rw [alertInv_last_value]
    exact evaluate_step2_inv env rule _ now _ _ h

/-- Auxiliary: `alertInv` holds along any run from a given invariant
state. -/
theorem run_alert_inv (rule : AlertRule) (ticks : List (NoiseEnv × ℚ × MarketData)) :
    ∀ s : AlertState, alertInv s → alertInv (run_alert rule s ticks).1 := by
  induction ticks with
  | nil => intro s h; exact h
  | cons t rest ih =>
    intro s h
    obtain ⟨env, now, data⟩ := t
    exact ih _ (evaluate_rule_inv env rule s now data h)

/-- A DIP_GT rule with a 10-second debounce. -/
def debounceProbeRule : AlertRule :=
  { id := "r4", user_id := "u", symbol := "S"
    condition := AlertCondition.DIP_GT, threshold := 5
    debounce_seconds := 10, hysteresis_reset := 0, confirm_window_seconds := 0
    enabled := true, cooldown_seconds := 3600, priority := Priority.MEDIUM }

/-- Market data whose only populated entry is the dip percentage. -/
def dipData (q : ℚ) : MarketData :=
  { dip_percent := some q, rsi := none, macd_hist := none, volume := none
    avg_volume := none, pre_score := none }

/-- An environment outside quiet hours with no budget denial. -/
def openEnv : NoiseEnv :=
  { local_now := 600, quiet_start := 1320, quiet_end := 480, budget_check := none }

/-- **C1 (counterexample).** Two ticks from the initial state — dip 6
arming the 10-second debounce at `t = 0`, then dip 4 at `t = 5`
reverting to IDLE — leave the rule in state IDLE with
`first_signal_at = some 0` still set: the claimed equivalence
"state = ARMED ⇔ first_signal_at ≠ null" (leaving ARMED clears
`first_signal_at`) is violated. -/
theorem alert_invariant_counterexample :
    (run_alert debounceProbeRule (alertInit "r4" "S" 0)
        [(openEnv, 0, dipData 6), (openEnv, 5, dipData 4)]).1.state =
      AlertStateEnum.IDLE ∧
    (run_alert debounceProbeRule (alertInit "r4" "S" 0)
        [(openEnv, 0, dipData 6), (openEnv, 5, dipData 4)]).1.first_signal_at =
      some 0 := by
  refine ⟨?_, ?_⟩ <;> rfl

/-- **C1 (amended).** After every sequence of `evaluate_rule` ticks
from the initial state, the forward implications hold: if the state is
COOLDOWN then `cooldown_until` is non-null, and if the state is ARMED
then `first_signal_at` is non-null.  The claimed converses fail:
leaving COOLDOWN or ARMED does not clear those fields. -/
theorem alert_state_invariant_amended (rule : AlertRule)
    (ticks : List (NoiseEnv × ℚ × MarketData)) (rule_id symbol : String) (t0 : ℚ) :
    alertInv (run_alert rule (alertInit rule_id symbol t0) ticks).1 :=
  run_alert_inv rule ticks _ (by simp [alertInv, alertInit])

/-- Witness for C1 at a concrete input: a run ending in COOLDOWN indeed
has a non-null `cooldown_until`. -/
theorem alert_state_invariant_amended_witness :
    (run_alert quietProbeRule (alertInit "r3" "S" 0)
        [(openEnv, 0, dipData 6), (openEnv, 1, dipData 2)]).1.state =
      AlertStateEnum.COOLDOWN ∧
    (run_alert quietProbeRule (alertInit "r3" "S" 0)
        [(openEnv, 0, dipData 6), (openEnv, 1, dipData 2)]).1.cooldown_until ≠ none :=
  ⟨rfl,
    (alert_state_invariant_amended quietProbeRule
      [(openEnv, 0, dipData 6), (openEnv, 1, dipData 2)] "r3" "S" 0).1 rfl⟩

/-! ### Sector machine theorems -/

/-- The `mkRat` fields of `defaultThresholds` are the decimal fractions
of the source (`0.35`, `0.45`, `0.55`, `0.33`, `0.43`, `0.10`). -/
theorem defaultThresholds_fractions :
    defaultThresholds.watch_rsi40_breadth_min = 35 / 100 ∧
    defaultThresholds.alert_rsi40_breadth_min = 45 / 100 ∧
    defaultThresholds.alert_down_breadth_min = 55 / 100 ∧
    defaultThresholds.watch_exit_rsi40 = 33 / 100 ∧
    defaultThresholds.alert_exit_rsi40 = 43 / 100 ∧
    defaultThresholds.breadth_worsen_threshold = 10 / 100 := by
  refine ⟨?_, ?_, ?_, ?_, ?_, ?_⟩ <;>
    simp [defaultThresholds] <;> norm_num [mkRat, Rat.normalize]

/-- The per-sector invariant that actually holds: a sector in COOLDOWN
has both `cooldown_until` and `last_alert_metrics` set.  (The claimed
converse fails — `cooldown_until` is never cleared on leaving COOLDOWN —
and a sector in ALERT need not have `last_alert_metrics`.) -/
def sectorInv (r : SectorStateRecord) : Prop :=
  r.current_state = SectorState.COOLDOWN →
    r.cooldown_until ≠ none ∧ r.last_alert_metrics ≠ none

/-- Auxiliary: one `update_state` call preserves `sectorInv`. -/
theorem update_state_inv (th : StateThresholds) (r : SectorStateRecord) (now : ℚ)
    (m : SectorMetrics) (h : sectorInv r) : sectorInv (update_state th r now m).1 := by
  unfold update_state
  cases hs : r.current_state <;> dsimp only <;> split_ifs <;>
    simp_all [sectorInv]

/-- Auxiliary: `sectorInv` holds along any run from an invariant
record. -/
theorem run_sector_inv (th : StateThresholds) (ticks : List (ℚ × SectorMetrics)) :
    ∀ r : SectorStateRecord, sectorInv r → sectorInv (run_sector th r ticks).1 := by
  induction ticks with
  | nil => intro r h; exact h
  | cons t rest ih =>
    intro r h
    obtain ⟨now, m⟩ := t
    exact ih _ (update_state_inv th r now m h)

/-- Metrics meeting the default ALERT entry criteria. -/
def alertProbeMetrics : SectorMetrics :=
  { dip_pct := some 9, rsi40_breadth := some 1, lowerband_breadth := some 0 }

/-- Metrics meeting the default ALERT exit criteria. -/
def calmProbeMetrics : SectorMetrics :=
  { dip_pct := some 0, rsi40_breadth := some 0, lowerband_breadth := some 0 }

/-- **C3 (counterexample).** A fresh sector entering ALERT on its first
snapshot has `last_alert_metrics = None`: the claimed invariant
"`last_alert_metrics` non-null whenever `current_state ∈
{ALERT, COOLDOWN}`" is violated (it is only saved when ALERT is
exited). -/
theorem sector_invariant_counterexample :
    (update_state defaultThresholds (sectorInit "fin" 0) 0 alertProbeMetrics).1.current_state =
      SectorState.ALERT ∧
    (update_state defaultThresholds (sectorInit "fin" 0) 0 alertProbeMetrics).1.last_alert_metrics =
      none := by
  constructor <;> decide

/-- **C3 (amended).** For every sector and every sequence of
`update_state` calls from the fresh record, whenever the state is
COOLDOWN both `cooldown_until` and `last_alert_metrics` are non-null.
The claimed converse fails (`cooldown_until` survives leaving COOLDOWN)
and ALERT does not guarantee `last_alert_metrics`. -/
theorem sector_state_invariant_amended (th : StateThresholds)
    (ticks : List (ℚ × SectorMetrics)) (sector_id : String) (t0 : ℚ) :
    sectorInv (run_sector th (sectorInit sector_id t0) ticks).1 :=
  run_sector_inv th ticks _ (by simp [sectorInv, sectorInit])

/-- Witness for C3 at a concrete input: a run ending in COOLDOWN has
both fields set. -/
theorem sector_state_invariant_amended_witness :
    (run_sector defaultThresholds (sectorInit "fin" 0)
        [(0, alertProbeMetrics), (1, calmProbeMetrics)]).1.current_state =
      SectorState.COOLDOWN ∧
    (run_sector defaultThresholds (sectorInit "fin" 0)
        [(0, alertProbeMetrics), (1, calmProbeMetrics)]).1.cooldown_until ≠ none ∧
    (run_sector defaultThresholds (sectorInit "fin" 0)
        [(0, alertProbeMetrics), (1, calmProbeMetrics)]).1.last_alert_metrics ≠ none :=
  ⟨by decide,
    (sector_state_invariant_amended defaultThresholds
      [(0, alertProbeMetrics), (1, calmProbeMetrics)] "fin" 0 (by decide)).1,
    (sector_state_invariant_amended defaultThresholds
      [(0, alertProbeMetrics), (1, calmProbeMetrics)] "fin" 0 (by decide)).2⟩

/-! ### Candidate ranker theorems -/

/-- Auxiliary: every scored candidate has a nonzero pre-score. -/
theorem scoredList_pre_ne_zero (cands : List Candidate) :
    ∀ x ∈ scoredList cands, x.pre.pre_score ≠ 0 := by
  intro x hx
  simp only [scoredList, List.mem_filterMap] at hx
  obtain ⟨c, _, hc⟩ := hx
  split at hc
  · exact absurd hc (by simp)
  · split_ifs at hc with hz
    injection hc with he
    subst he
    exact hz

/-- Auxiliary: second components of `enumFrom` entries are members. -/
theorem snd_mem_of_mem_enumFrom :
    ∀ (l : List ScoredCand) (n : ℕ) (p : ℕ × ScoredCand),
      p ∈ l.enumFrom n → p.2 ∈ l := by
  intro l
  induction l with
  | nil => intro n p hp; simp [List.enumFrom] at hp
  | cons a t ih =>
    intro n p hp
    simp only [List.enumFrom, List.mem_cons] at hp
    rcases hp with hp | hp
    · subst hp; simp
    · exact List.mem_cons_of_mem _ (ih (n + 1) p hp)

/-- Auxiliary: the ranks produced by enumeration count up from
`n + 1`. -/
theorem enumFrom_map_rank :
    ∀ (l : List ScoredCand) (n : ℕ),
      (l.enumFrom n).map (fun ic => ic.1 + 1) = List.range' (n + 1) l.length := by
  intro l
  induction l with
  | nil => intro n; simp [List.enumFrom]
  | cons a t ih =>
    intro n
    simp only [List.enumFrom, List.map_cons, List.length_cons, List.range'_succ]
    exact congrArg _ (ih (n + 1))

/-- A candidate with pre-score 4 and no secondary data; two copies of
it tie on the composite score. -/
def tieProbeCandidate : Candidate :=
  { pre_score := some { symbol := "AAA", pre_score := 4, reasons := [], flags := [] }
    current_price := 100, sma200 := none, bollinger := none, adtv := 0 }

/-- **C9 (counterexample).** On the two-element input consisting of two
identical candidates (pre-score 4), `rank_candidates` keeps both with
equal composite scores, so the output is *not* strictly descending on
the composite ranking score. -/
theorem rank_candidates_not_strict_counterexample :
    (rank_candidates [tieProbeCandidate, tieProbeCandidate] 12).length = 2 ∧
    ¬ List.Chain' (fun a b : ScoredCand => a.sort_score > b.sort_score)
        (top_candidates [tieProbeCandidate, tieProbeCandidate] 12) := by
  have hscore : calculate_ranking_score 4 100 none none 0 = 400 := by
    simp [calculate_ranking_score]
    norm_num
  have hsl : scoredList [tieProbeCandidate, tieProbeCandidate] =
      [{ cand := tieProbeCandidate
         pre := { symbol := "AAA", pre_score := 4, reasons := [], flags := [] }
         sort_score := 400, dist_sma := 0, dist_lower := 0 },
       { cand := tieProbeCandidate
         pre := { symbol := "AAA", pre_score := 4, reasons := [], flags := [] }
         sort_score := 400, dist_sma := 0, dist_lower := 0 }] := by
    simp [scoredList, tieProbeCandidate, hscore]
  constructor
  · simp [rank_candidates, top_candidates, sortedScored, hsl,
      List.insertionSort, List.orderedInsert, rank_ge]
  · simp [top_candidates, sortedScored, hsl, List.insertionSort,
      List.orderedInsert, rank_ge]

/-- **C9 (amended).** `rank_candidates` drops all candidates with a
missing or zero pre-score, returns at most `limit` results ordered
*non-increasingly* (descending with ties allowed, e.g. for duplicate
inputs) on the composite ranking score, with ranks re-indexed starting
at 1. -/
theorem rank_candidates_amended (cands : List Candidate) (limit : ℕ) :
    (rank_candidates cands limit).length ≤ limit ∧
    List.Pairwise (fun a b : ScoredCand => b.sort_score ≤ a.sort_score)
      (top_candidates cands limit) ∧
    (∀ r ∈ rank_candidates cands limit, r.pre_score ≠ 0) ∧
    (rank_candidates cands limit).map RankedCandidate.rank =
      List.range' 1 (rank_candidates cands limit).length ∧
    (rank_candidates cands limit).length = (top_candidates cands limit).length := by
  have hlen : (rank_candidates cands limit).length = (top_candidates cands limit).length := by
    simp [rank_candidates, List.length_map, List.enum_length]
  refine ⟨?_, ?_, ?_, ?_, hlen⟩
  · rw [hlen]
    simp only [top_candidates, List.length_take]
    exact min_le_left _ _
  · exact List.Pairwise.sublist (List.take_sublist _ _)
      (List.sorted_insertionSort rank_ge (scoredList cands))
  · intro r hr
    simp only [rank_candidates, List.mem_map] at hr
    obtain ⟨ic, hic, hr⟩ := hr
    subst hr
    have hmem : ic.2 ∈ top_candidates cands limit :=
      snd_mem_of_mem_enumFrom _ 0 ic hic
    have hmem2 : ic.2 ∈ sortedScored cands :=
      List.take_subset _ _ hmem
    have hmem3 : ic.2 ∈ scoredList cands :=
      ((List.perm_insertionSort rank_ge (scoredList cands)).mem_iff).1 hmem2
    exact scoredList_pre_ne_zero cands ic.2 hmem3
  · rw [hlen]
    simp only [rank_candidates, List.map_map]
    have : (RankedCandidate.rank ∘ fun ic : ℕ × ScoredCand =>
        ({ symbol := ic.2.pre.symbol, rank := ic.1 + 1, pre_score := ic.2.pre.pre_score
           reasons := ic.2.pre.reasons, flags := ic.2.pre.flags
           distance_to_sma200_pct := ic.2.dist_sma
           distance_to_lower_band_pct := ic.2.dist_lower
           adtv := ic.2.cand.adtv } : RankedCandidate)) = fun ic => ic.1 + 1 := rfl
    rw [this]
    exact enumFrom_map_rank (top_candidates cands limit) 0

/-- Witness for C9 at a concrete input. -/
theorem rank_candidates_amended_witness :
    (rank_candidates [tieProbeCandidate, tieProbeCandidate] 12).length ≤ 12 :=
  (rank_candidates_amended [tieProbeCandidate, tieProbeCandidate] 12).1

/-! ### Identical-snapshot behaviour (C4) -/

/-- Bound on the number of future transitions of the alert machine when
the same `(met, reset)` outcome and the same timestamp are fed
forever. -/
def alertMu (rule : AlertRule) (now : ℚ) (met reset : Bool) (s : AlertState) : ℕ :=
  match s.state with
  | AlertStateEnum.IDLE =>
    if met then (if rule.debounce_seconds > 0 then 1 else if reset then 2 else 1) else 0
  | AlertStateEnum.ARMED =>
    if met then
      match s.first_signal_at with
      | some t =>
        if now - t ≥ rule.debounce_seconds then (if reset then 2 else 1) else 0
      | none => 0
    else 1
  | AlertStateEnum.TRIGGERED => if reset then 1 else 0
  | AlertStateEnum.COOLDOWN =>
    match s.cooldown_until with
    | some cu =>
      if now ≥ cu then
        (if met then (if rule.debounce_seconds > 0 then 2 else if reset then 3 else 2)
         else 1)
      else 0
    | none => 0

/-- Auxiliary: `alertMu` never exceeds 3. -/
theorem alertMu_le_three (rule : AlertRule) (now : ℚ) (met reset : Bool)
    (s : AlertState) : alertMu rule now met reset s ≤ 3 := by
  unfold alertMu
  cases s.state <;> dsimp only
  · split_ifs <;> omega
  · cases s.first_signal_at <;> dsimp only <;> split_ifs <;> omega
  · split_ifs <;> omega
  · cases s.cooldown_until <;> dsimp only
    · omega
    · split_ifs <;> omega

/-- Auxiliary: the elif chain consumes the `alertMu` bound. -/
theorem evaluate_step2_mu (env : NoiseEnv) (rule : AlertRule) (s1 : AlertState)
    (now : ℚ) (m : Bool) (v : ℚ) (hcd : 0 < rule.cooldown_seconds) :
    (evaluate_step2 env rule s1 now m v).2 +
      alertMu rule now m (should_reset rule v) (evaluate_step2 env rule s1 now m v).1 ≤
      alertMu rule now m (should_reset rule v) s1 := by
  have hnd : ∀ db : ℚ, db > 0 → ¬ (now - now ≥ db) := by
    intro db hdb
    rw [sub_self]
    exact not_le.mpr hdb
  have hnc : ¬ (now ≥ now + rule.cooldown_seconds) := by
    intro hh
    linarith
  unfold evaluate_step2
  generalize should_reset rule v = r
  cases hs : s1.state <;> dsimp only
  case IDLE =>
    by_cases hm : m = true
    · rw [if_pos hm]
      by_cases hdb : rule.debounce_seconds > 0
      · rw [if_pos hdb]
        simp [alertMu, transition, hs, hm, hdb, hnd _ hdb]
      · rw [if_neg hdb]
        rw [trigger_alert_fst]
        simp only [alertMu, transition, hs, hm, if_true, if_neg hdb]
        split_ifs <;> omega
    · rw [if_neg hm]
      simp [alertMu, hs, hm]
  case ARMED =>
    by_cases hm : m = true
    · rw [if_pos hm]
      cases hfs : s1.first_signal_at
      · dsimp only
        simp [alertMu, hs, hm, hfs]
      · dsimp only
        split_ifs with hmat
        · rw [trigger_alert_fst]
          simp only [alertMu, transition, hs, hm, hfs, if_true, if_pos hmat]
          split_ifs <;> omega
        · simp [alertMu, hs, hm, hfs, hmat]
    · rw [if_neg hm]
      simp [alertMu, transition, hs, hm]
  case TRIGGERED =>
    split_ifs with hr
    · simp [alertMu, transition, hs, hr, hnc]
    · simp [alertMu, hs, hr]
  case COOLDOWN =>
    simp [alertMu, hs]

/-- Auxiliary: `alertMu` ignores `last_value`. -/
theorem alertMu_last_value (rule : AlertRule) (now : ℚ) (met reset : Bool)
    (s : AlertState) (v : Option ℚ) :
    alertMu rule now met reset { s with last_value := v } =
      alertMu rule now met reset s := rfl

/-- Auxiliary: one full `evaluate_rule` tick consumes the `alertMu`
bound. -/
theorem evaluate_rule_mu (env : NoiseEnv) (rule : AlertRule) (s : AlertState)
    (now : ℚ) (data : MarketData) (hcd : 0 < rule.cooldown_seconds) :
    (evaluate_rule env rule s now data).2 +
      alertMu rule now (check_condition rule data).1
        (should_reset rule (check_condition rule data).2)
        (evaluate_rule env rule s now data).1 ≤
      alertMu rule now (check_condition rule data).1
        (should_reset rule (check_condition rule data).2) s := by
  unfold evaluate_rule
  split_ifs with h1 h2
  · simp
  · -- cooldown expired: exit to IDLE, then run the chain
    have hexp : cooldownExpired s now = true := by
      cases hB : cooldownExpired s now
      · exact absurd ⟨h2, by simp [hB]⟩ h1
      · rfl
    obtain ⟨cu, hcu, hge⟩ : ∃ cu, s.cooldown_until = some cu ∧ now ≥ cu := by
      unfold cooldownExpired at hexp
      cases hcu : s.cooldown_until with
      | none => rw [hcu] at hexp; exact absurd hexp (by simp)
      | some cu =>
        rw [hcu] at hexp
        exact ⟨cu, rfl, of_decide_eq_true hexp⟩
    have hstep := evaluate_step2_mu env rule (transition s AlertStateEnum.IDLE now) now
      (check_condition rule data).1 (check_condition rule data).2 hcd
    have hmid : 1 + alertMu rule now (check_condition rule data).1
        (should_reset rule (check_condition rule data).2)
        (transition s AlertStateEnum.IDLE now) ≤
        alertMu rule now (check_condition rule data).1
          (should_reset rule (check_condition rule data).2) s := by
      simp only [alertMu, transition, h2, hcu]
      rw [if_pos hge]
      split_ifs <;> omega
    simp only [alertMu_last_value]
    omega
  · have hstep := evaluate_step2_mu env rule s now
      (check_condition rule data).1 (check_condition rule data).2 hcd
    simp only [alertMu_last_value]
    omega

/-- Auxiliary: total transitions over `n` identical ticks are bounded
by `alertMu`. -/
theorem run_alert_replicate_mu (env : NoiseEnv) (rule : AlertRule) (now : ℚ)
    (data : MarketData) (hcd : 0 < rule.cooldown_seconds) :
    ∀ (n : ℕ) (s : AlertState),
      (run_alert rule s (List.replicate n (env, now, data))).2 ≤
        alertMu rule now (check_condition rule data).1
          (should_reset rule (check_condition rule data).2) s := by
  intro n
  induction n with
  | zero => intro s; simp [run_alert]
  | succ k ih =>
    intro s
    simp only [List.replicate_succ, run_alert]
    have h1 := evaluate_rule_mu env rule s now data hcd
    have h2 := ih (evaluate_rule env rule s now data).1
    omega

/-- Bound on the number of future transitions of the sector machine
when the same `(now, metrics)` snapshot is fed forever. -/
def sectorMu (th : StateThresholds) (now : ℚ) (m : SectorMetrics)
    (r : SectorStateRecord) : ℕ :=
  match r.current_state with
  | SectorState.NORMAL =>
    if meets_alert_criteria th m then 1 + (if should_exit_alert th m then 1 else 0)
    else if meets_watch_criteria th m then 1 else 0
  | SectorState.WATCH =>
    if meets_alert_criteria th m then 1 + (if should_exit_alert th m then 1 else 0)
    else if should_exit_watch th m then 1 else 0
  | SectorState.ALERT => if should_exit_alert th m then 1 else 0
  | SectorState.COOLDOWN =>
    if sectorCooldownExpired r.cooldown_until now then
      1 + (if meets_alert_criteria th m then 1 + (if should_exit_alert th m then 1 else 0)
           else if meets_watch_criteria th m then 1 else 0)
    else if check_worsen_conditions th m r.last_alert_metrics then
      1 + (if should_exit_alert th m then 1 else 0)
    else 0

/-- Auxiliary: `sectorMu` never exceeds 3. -/
theorem sectorMu_le_three (th : StateThresholds) (now : ℚ) (m : SectorMetrics)
    (r : SectorStateRecord) : sectorMu th now m r ≤ 3 := by
  unfold sectorMu
  cases r.current_state <;> dsimp only <;> split_ifs <;> omega

/-- Auxiliary: under the hysteresis-shaped thresholds, a sector meeting
the watch criteria does not simultaneously meet the watch-exit
criteria. -/
theorem watch_no_exit (th : StateThresholds) (m : SectorMetrics)
    (hwd : th.watch_exit_dip ≤ th.watch_dip_min)
    (hwr : th.watch_exit_rsi40 ≤ th.watch_rsi40_breadth_min)
    (hw : meets_watch_criteria th m = true) : should_exit_watch th m = false := by
  simp only [meets_watch_criteria, Bool.and_eq_true, decide_eq_true_eq, ge_iff_le] at hw
  simp only [should_exit_watch, Bool.or_eq_false_iff, decide_eq_false_iff_not, not_lt]
  exact ⟨le_trans hwd hw.1, le_trans hwr hw.2⟩

/-- Auxiliary: contrapositive of `watch_no_exit`. -/
theorem exit_no_watch (th : StateThresholds) (m : SectorMetrics)
    (hwd : th.watch_exit_dip ≤ th.watch_dip_min)
    (hwr : th.watch_exit_rsi40 ≤ th.watch_rsi40_breadth_min)
    (he : should_exit_watch th m = true) : meets_watch_criteria th m = false := by
  cases hw : meets_watch_criteria th m
  · rfl
  · rw [watch_no_exit th m hwd hwr hw] at he
    exact absurd he (by simp)

/-- Auxiliary: one `update_state` call consumes the `sectorMu` bound. -/
theorem update_state_mu (th : StateThresholds) (r : SectorStateRecord) (now : ℚ)
    (m : SectorMetrics) (hcd : 0 < th.cooldown_duration_seconds)
    (hdw : 0 < th.dip_worsen_threshold) (hbw : 0 < th.breadth_worsen_threshold)
    (hwd : th.watch_exit_dip ≤ th.watch_dip_min)
    (hwr : th.watch_exit_rsi40 ≤ th.watch_rsi40_breadth_min) :
    (if (update_state th r now m).2.isSome then 1 else 0) +
      sectorMu th now m (update_state th r now m).1 ≤ sectorMu th now m r := by
  have hfresh :
      sectorCooldownExpired (some (now + th.cooldown_duration_seconds)) now = false := by
    simp only [sectorCooldownExpired, decide_eq_false_iff_not, ge_iff_le, not_le]
    linarith
  have hself : check_worsen_conditions th m (some m) = false := by
    simp only [check_worsen_conditions, sub_self, Bool.or_eq_false_iff,
      decide_eq_false_iff_not, ge_iff_le, not_le]
    exact ⟨hdw, hbw⟩
  unfold update_state
  cases hs : r.current_state <;> dsimp only
  case NORMAL =>
    by_cases hal : meets_alert_criteria th m = true
    · rw [if_pos hal]
      dsimp only
      rw [if_pos (by simp : SectorState.ALERT ≠ SectorState.NORMAL)]
      simp only [sectorMu, hs, hal, Option.isSome_some, if_true]
      split_ifs <;> omega
    · rw [if_neg hal]
      by_cases hwa : meets_watch_criteria th m = true
      · rw [if_pos hwa]
        dsimp only
        rw [if_pos (by simp : SectorState.WATCH ≠ SectorState.NORMAL)]
        simp only [sectorMu, hs, hal, hwa, Option.isSome_some, if_true,
          Bool.false_eq_true, if_false, watch_no_exit th m hwd hwr hwa]
        omega
      · rw [if_neg hwa]
        dsimp only
        rw [if_neg (by simp : ¬ (SectorState.NORMAL ≠ SectorState.NORMAL))]
        simp [sectorMu, hs, hal, hwa]
  case WATCH =>
    by_cases hal : meets_alert_criteria th m = true
    · rw [if_pos hal]
      dsimp only
      rw [if_pos (by simp : SectorState.ALERT ≠ SectorState.WATCH)]
      simp only [sectorMu, hs, hal, Option.isSome_some, if_true]
      split_ifs <;> omega
    · rw [if_neg hal]
      by_cases hew : should_exit_watch th m = true
      · rw [if_pos hew]
        dsimp only
        rw [if_pos (by simp : SectorState.NORMAL ≠ SectorState.WATCH)]
        simp only [sectorMu, hs, hal, hew, Option.isSome_some, if_true,
          Bool.false_eq_true, if_false, exit_no_watch th m hwd hwr hew]
        omega
      · rw [if_neg hew]
        dsimp only
        rw [if_neg (by simp : ¬ (SectorState.WATCH ≠ SectorState.WATCH))]
        simp [sectorMu, hs, hal, hew]
  case ALERT =>
    by_cases hea : should_exit_alert th m = true
    · rw [if_pos hea]
      dsimp only
      rw [if_pos (by simp : SectorState.COOLDOWN ≠ SectorState.ALERT)]
      simp only [sectorMu, hs, hea, Option.isSome_some, if_true, hfresh, hself,
        Bool.false_eq_true, if_false]
      omega
    · rw [if_neg hea]
      dsimp only
      rw [if_neg (by simp : ¬ (SectorState.ALERT ≠ SectorState.ALERT))]
      simp [sectorMu, hs, hea]
  case COOLDOWN =>
    by_cases hexp : sectorCooldownExpired r.cooldown_until now = true
    · rw [if_pos hexp]
      dsimp only
      rw [if_pos (by simp : SectorState.NORMAL ≠ SectorState.COOLDOWN)]
      simp only [sectorMu, hs, hexp, Option.isSome_some, if_true]
      split_ifs <;> omega
    · rw [if_neg hexp]
      by_cases hwo : check_worsen_conditions th m r.last_alert_metrics = true
      · rw [if_pos hwo]
        dsimp only
        rw [if_pos (by simp : SectorState.ALERT ≠ SectorState.COOLDOWN)]
        simp only [Bool.not_eq_true] at hexp
        simp only [sectorMu, hs, hexp, hwo, Option.isSome_some, if_true,
          Bool.false_eq_true, if_false]
        split_ifs <;> omega
      · rw [if_neg hwo]
        dsimp only
        rw [if_neg (by simp : ¬ (SectorState.COOLDOWN ≠ SectorState.COOLDOWN))]
        simp only [Bool.not_eq_true] at hexp hwo
        simp [sectorMu, hs, hexp, hwo]

/-- Auxiliary: total transitions over `n` identical snapshots are
bounded by `sectorMu`. -/
theorem run_sector_replicate_mu (th : StateThresholds) (now : ℚ) (m : SectorMetrics)
    (hcd : 0 < th.cooldown_duration_seconds) (hdw : 0 < th.dip_worsen_threshold)
    (hbw : 0 < th.breadth_worsen_threshold)
    (hwd : th.watch_exit_dip ≤ th.watch_dip_min)
    (hwr : th.watch_exit_rsi40 ≤ th.watch_rsi40_breadth_min) :
    ∀ (n : ℕ) (r : SectorStateRecord),
      (run_sector th r (List.replicate n (now, m))).2 ≤ sectorMu th now m r := by
  intro n
  induction n with
  | zero => intro r; simp [run_sector]
  | succ k ih =>
    intro r
    simp only [List.replicate_succ, run_sector]
    have h1 := update_state_mu th r now m hcd hdw hbw hwd hwr
    have h2 := ih (update_state th r now m).1
    omega

/-- **C4 (counterexample).** Two literally identical snapshots — same
MACD market data *and* the same timestamp — fed to a MACD_BULLISH rule
from its initial state produce two transitions (IDLE→TRIGGERED, then
TRIGGERED→COOLDOWN, because MACD rules reset unconditionally): the
claimed "never more than one transition over the whole sequence"
fails. -/
theorem identical_snapshots_counterexample :
    (run_alert macdProbeRule (alertInit "r2" "S" 0)
        [(openEnv, 0, macdProbeData), (openEnv, 0, macdProbeData)]).2 = 2 := rfl

/-- **C4 (amended).** Feeding a sequence of identical snapshots that
also carry the same evaluation timestamp, from *any* starting state,
produces at most three transitions in total: for the per-rule alert
machine provided `cooldown_seconds > 0`, and for the sector machine
provided the cooldown duration and both worsen thresholds are positive
and the watch-exit thresholds do not exceed the watch-entry thresholds
(all satisfied by the defaults).  More than one transition is possible
(e.g. trigger and then immediate cooldown), and with advancing
timestamps the number of transitions is unbounded (cooldown-expiry
loops), so the claimed bound of one transition is wrong. -/
theorem identical_snapshots_amended :
    (∀ (env : NoiseEnv) (rule : AlertRule) (s : AlertState) (now : ℚ)
        (data : MarketData) (n : ℕ), 0 < rule.cooldown_seconds →
      (run_alert rule s (List.replicate n (env, now, data))).2 ≤ 3) ∧
    (∀ (th : StateThresholds) (r : SectorStateRecord) (now : ℚ) (m : SectorMetrics)
        (n : ℕ), 0 < th.cooldown_duration_seconds → 0 < th.dip_worsen_threshold →
      0 < th.breadth_worsen_threshold → th.watch_exit_dip ≤ th.watch_dip_min →
      th.watch_exit_rsi40 ≤ th.watch_rsi40_breadth_min →
      (run_sector th r (List.replicate n (now, m))).2 ≤ 3) := by
  constructor
  · intro env rule s now data n hcd
    exact le_trans (run_alert_replicate_mu env rule now data hcd n s)
      (alertMu_le_three rule now (check_condition rule data).1
        (should_reset rule (check_condition rule data).2) s)
  · intro th r now m n hcd hdw hbw hwd hwr
    exact le_trans (run_sector_replicate_mu th now m hcd hdw hbw hwd hwr n r)
      (sectorMu_le_three th now m r)

/-- Witness for C4 at a concrete input. -/
theorem identical_snapshots_amended_witness :
    (run_alert macdProbeRule (alertInit "r2" "S" 0)
        (List.replicate 2 (openEnv, 0, macdProbeData))).2 ≤ 3 :=
  identical_snapshots_amended.1 openEnv macdProbeRule (alertInit "r2" "S" 0) 0
    macdProbeData 2 (by norm_num [macdProbeRule])

end DipLens
